import Mathlib

/-!
Verification of the deterministic evaluation-and-consensus engine of the
`kai_hackathon_1` order-negotiation backend.

Python floats are modelled as exact rationals (`ℚ`), Python ints as `ℤ`
(or `ℕ` where the source guarantees non-negativity).  `round(x, n)` is
modelled as exact round-half-to-even at `n` decimal digits, `int(x)` as
truncation toward zero, and `//` as floor division, matching CPython's
semantics on exact values.  Optional / absent dictionary entries are
modelled as `Option` values; `dict.get(k, d)` becomes `Option.getD`.
-/

namespace Spec2Proof

/-- Round a rational to the nearest integer, ties to even (Python `round`). -/
def roundHalfEven (q : ℚ) : ℤ :=
  let f := ⌊q⌋
  let r := q - (f : ℚ)
  if r < 1/2 then f
  else if 1/2 < r then f + 1
  else if f % 2 = 0 then f else f + 1

/-- Python `round(x, 2)` on exact values. -/
def round2 (q : ℚ) : ℚ := (roundHalfEven (q * 100) : ℚ) / 100

/-- Python `round(x, 4)` on exact values. -/
def round4 (q : ℚ) : ℚ := (roundHalfEven (q * 10000) : ℚ) / 10000

/-- Python `int(x)` on a float: truncation toward zero. -/
def pytrunc (q : ℚ) : ℤ := if 0 ≤ q then ⌊q⌋ else -⌊-q⌋

/-- Python `a or b` for numeric `a`, `b`: `b` when `a` is falsy (zero). -/
def pyOrQ (a b : ℚ) : ℚ := if a = 0 then b else a

/-- Python `a or b` for integer `a`, `b`. -/
def pyOrI (a b : ℤ) : ℤ := if a = 0 then b else a

theorem floor_le_roundHalfEven (q : ℚ) : ⌊q⌋ ≤ roundHalfEven q := by
  unfold roundHalfEven
  dsimp only
  split
  · exact le_refl _
  · split
    · omega
    · split <;> omega

theorem roundHalfEven_le_ceil (q : ℚ) : roundHalfEven q ≤ ⌈q⌉ := by
  unfold roundHalfEven
  dsimp only
  have hceil : (⌊q⌋ : ℤ) ≤ ⌈q⌉ := Int.floor_le_ceil q
  split
  · exact hceil
  · rename_i h1
    push_neg at h1
    have h2 : (⌊q⌋ : ℚ) < q := by linarith
    have h3 : (⌊q⌋ : ℚ) < (⌈q⌉ : ℚ) := lt_of_lt_of_le h2 (Int.le_ceil q)
    have h4 : ⌊q⌋ < ⌈q⌉ := by exact_mod_cast h3
    split
    · omega
    · split <;> omega

theorem roundHalfEven_intCast (n : ℤ) : roundHalfEven (n : ℚ) = n := by
  unfold roundHalfEven
  dsimp only
  rw [Int.floor_intCast]
  simp

/-- A rational representable with two decimal digits. -/
def IsTwoDec (q : ℚ) : Prop := ∃ n : ℤ, q = (n : ℚ) / 100

theorem round2_of_twoDec {q : ℚ} (h : IsTwoDec q) : round2 q = q := by
  obtain ⟨n, rfl⟩ := h
  unfold round2
  have : (n : ℚ) / 100 * 100 = (n : ℚ) := by ring
  rw [this, roundHalfEven_intCast]

theorem round2_isTwoDec (q : ℚ) : IsTwoDec (round2 q) := ⟨roundHalfEven (q * 100), rfl⟩

theorem le_round2_of_le {a q : ℚ} (ha : IsTwoDec a) (h : a ≤ q) : a ≤ round2 q := by
  obtain ⟨n, rfl⟩ := ha
  unfold round2
  have h100 : (n : ℚ) ≤ q * 100 := by
    have := mul_le_mul_of_nonneg_right h (by norm_num : (0:ℚ) ≤ 100)
    calc (n : ℚ) = (n : ℚ) / 100 * 100 := by ring
    _ ≤ q * 100 := this
  have hfl : n ≤ ⌊q * 100⌋ := Int.le_floor.mpr h100
  have hrd : n ≤ roundHalfEven (q * 100) := le_trans hfl (floor_le_roundHalfEven _)
  have : (n : ℚ) ≤ (roundHalfEven (q * 100) : ℚ) := by exact_mod_cast hrd
  linarith

theorem round2_le_of_le {a q : ℚ} (ha : IsTwoDec a) (h : q ≤ a) : round2 q ≤ a := by
  obtain ⟨n, rfl⟩ := ha
  unfold round2
  have h100 : q * 100 ≤ (n : ℚ) := by
    have := mul_le_mul_of_nonneg_right h (by norm_num : (0:ℚ) ≤ 100)
    calc q * 100 ≤ (n : ℚ) / 100 * 100 := this
    _ = (n : ℚ) := by ring
  have hcl : ⌈q * 100⌉ ≤ n := Int.ceil_le.mpr h100
  have hrd : roundHalfEven (q * 100) ≤ n := le_trans (roundHalfEven_le_ceil _) hcl
  have : (roundHalfEven (q * 100) : ℚ) ≤ (n : ℚ) := by exact_mod_cast hrd
  linarith

theorem twoDec_min {a b : ℚ} (ha : IsTwoDec a) (hb : IsTwoDec b) : IsTwoDec (min a b) := by
  rcases le_total a b with h | h
  · rw [min_eq_left h]; exact ha
  · rw [min_eq_right h]; exact hb

theorem twoDec_max {a b : ℚ} (ha : IsTwoDec a) (hb : IsTwoDec b) : IsTwoDec (max a b) := by
  rcases le_total a b with h | h
  · rw [max_eq_right h]; exact hb
  · rw [max_eq_left h]; exact ha

/-- `safe_int(value, default)` from services.py; a missing or unparsable value is `none`. -/
def safe_int (value : Option ℤ) (default : ℤ) : ℤ := value.getD default

/-- `safe_float(value, default)` from services.py; a missing or unparsable value is `none`. -/
def safe_float (value : Option ℚ) (default : ℚ) : ℚ := value.getD default

/-- `normalize_confidence` from services.py: values above 1.0 are read as percentages
and the result is clamped into [0, 1].  The call sites below always pass a numeric
value (obtained via `dict.get` with a numeric default), so the `default` argument of
the source, which only matters for unparsable input, is dropped here. -/
def normalize_confidence (value : ℚ) : ℚ :=
  let raw := if value > 1 then value / 100 else value
  if raw < 0 then 0
  else if raw > 1 then 1
  else raw

/-- One agent's gate verdict as the live pipeline consumes it: the `can_proceed`,
`confidence` and `reasoning` entries of the response dict.  A missing or
non-numeric `confidence` entry is `none`. -/
structure AgentResult where
  can_proceed : Bool
  confidence : Option ℚ
  reasoning : String
deriving Repr, DecidableEq

/-- `stabilize_agent_confidence` from services.py: normalize the confidence and
raise it to `fallback` when the agent approves with normalized confidence below 0.70. -/
def stabilize_agent_confidence (agent_response : AgentResult) (fallback : ℚ) : AgentResult :=
  let normalized := normalize_confidence (agent_response.confidence.getD fallback)
  let normalized := if agent_response.can_proceed ∧ normalized < 7/10 then fallback else normalized
  { agent_response with confidence := some normalized }

/-- The five agent identifiers. -/
inductive AgentId where
  | production
  | finance
  | logistics
  | procurement
  | sales
deriving Repr, DecidableEq

/-- `AGENT_IDS` from agents/registry.py: `list(AGENT_DETAILS.keys())`, i.e. the
insertion order of the `AGENT_DETAILS` dict: production, finance, logistics,
procurement, sales. -/
def AGENT_IDS : List AgentId :=
  [AgentId.production, AgentId.finance, AgentId.logistics, AgentId.procurement, AgentId.sales]

/-- The raw results of the five agent `invoke` calls in `run_live_agent_pipeline`.
The agents' own computations are inputs here; the pipeline's combination logic is
what is embedded. -/
structure FiveResults where
  procurement_result : AgentResult
  production_result : AgentResult
  logistics_result : AgentResult
  finance_result : AgentResult
  sales_result : AgentResult
deriving Repr, DecidableEq

/-- Select the raw result for one agent id. -/
def FiveResults.get (r : FiveResults) : AgentId → AgentResult
  | AgentId.procurement => r.procurement_result
  | AgentId.production => r.production_result
  | AgentId.logistics => r.logistics_result
  | AgentId.finance => r.finance_result
  | AgentId.sales => r.sales_result

/-- The per-agent fallback confidences used at services.py lines 232-238. -/
def pipelineFallback : AgentId → ℚ
  | AgentId.procurement => 85/100
  | AgentId.production => 82/100
  | AgentId.logistics => 80/100
  | AgentId.finance => 82/100
  | AgentId.sales => 80/100

/-- The `agent_responses` dict built in `run_live_agent_pipeline`: each raw result
stabilized with its fallback confidence. -/
def agent_responses (raw : FiveResults) (a : AgentId) : AgentResult :=
  stabilize_agent_confidence (raw.get a) (pipelineFallback a)

/-- `MIN_CONSENSUS_CONFIDENCE` from services.py (default of the env override: 0.70). -/
def MIN_CONSENSUS_CONFIDENCE : ℚ := 70/100

/-- The fields of the `run_live_agent_pipeline` response dict needed by the claims.
The pricing fields (`final_price`, `total_deal_value`, `delivery_date`,
`cost_breakdown`) and the timestamp are not modelled, as no claim mentions them. -/
structure PipelineResponse where
  status : String
  quantity : ℤ
  consensus_reached : Bool
  message : Option String
  agent_responses : AgentId → AgentResult

/-- The `OrderRequest` fields `run_live_agent_pipeline` reads for the modelled
response fields. -/
structure OrderRequest where
  quantity : ℤ
deriving Repr, DecidableEq

/-- `run_live_agent_pipeline` from services.py, with the five agent `invoke`
results as inputs: stabilize each result, take the conjunction of `can_proceed`
over `AGENT_IDS`, average the normalized confidences, decide consensus, and on
failure pick the first blocking agent's reasoning in `AGENT_IDS` order (falling
back to the fixed confidence-threshold message). -/
def run_live_agent_pipeline (order_request : OrderRequest) (raw : FiveResults) :
    PipelineResponse :=
  let responses := agent_responses raw
  let all_can_proceed := AGENT_IDS.all fun a => (responses a).can_proceed
  let avg_confidence :=
    (AGENT_IDS.map fun a => normalize_confidence ((responses a).confidence.getD 0)).sum /
      (AGENT_IDS.length : ℚ)
  let consensus_reached := all_can_proceed && decide (avg_confidence ≥ MIN_CONSENSUS_CONFIDENCE)
  let rejection_reason :=
    ((AGENT_IDS.find? fun a => !(responses a).can_proceed).map fun a =>
      (responses a).reasoning).getD "Consensus confidence threshold not met."
  { status := if consensus_reached then "SUCCESS" else "FAILURE"
    quantity := order_request.quantity
    consensus_reached := consensus_reached
    message := if consensus_reached then none else some rejection_reason
    agent_responses := responses }

/-- The order dict fields consumed by `run_process_order_for_synk`'s
`OrderRequest` construction; `none` models a missing or unparsable entry. -/
structure SynkOrder where
  quantity : Option ℤ
deriving Repr, DecidableEq

/-- The `OrderRequest` construction at services.py lines 121-132:
`quantity=max(1, safe_int(order['quantity'], 1))`. -/
def synkOrderRequest (order : SynkOrder) : OrderRequest :=
  { quantity := max 1 (safe_int order.quantity 1) }

/-- `run_process_order_for_synk` from services.py on its live-agent path (mock
mode with all five agents and the inventory manager initialized): build the
`OrderRequest` and run the live pipeline.  No branch of the source validates the
quantity; the other branches (mock response, manager, manager-unavailable) are
not modelled. -/
def run_process_order_for_synk (order : SynkOrder) (raw : FiveResults) :
    PipelineResponse :=
  run_live_agent_pipeline (synkOrderRequest order) raw

/-- The `quantity` entry of `build_synk_order` from services.py:
`safe_int(payload.get('quantity'), 5000)`, with no validation. -/
def build_synk_order_quantity (payload_quantity : Option ℤ) : ℤ :=
  safe_int payload_quantity 5000

/-- The round loop of `orchestrate` (routes/negotiation.py lines 115-173) over an
explicit worklist: process the round, then `break` when `round_has_consensus`
holds for it.  All per-round work (revision, pipeline call, SSE events) is
abstracted into the per-round consensus outcome. -/
def runRounds (round_has_consensus : ℕ → Bool) : List ℕ → List ℕ
  | [] => []
  | n :: rest =>
    if round_has_consensus n then [n] else n :: runRounds round_has_consensus rest

/-- The `for round_number in [1, 2, 3]` loop of `orchestrate`. -/
def orchestrateRounds (round_has_consensus : ℕ → Bool) : List ℕ :=
  runRounds round_has_consensus [1, 2, 3]

theorem normalize_confidence_nonneg (v : ℚ) : 0 ≤ normalize_confidence v := by
  unfold normalize_confidence
  dsimp only
  split_ifs <;> linarith

theorem normalize_confidence_le_one (v : ℚ) : normalize_confidence v ≤ 1 := by
  unfold normalize_confidence
  dsimp only
  split_ifs <;> linarith

theorem normalize_confidence_of_mem {v : ℚ} (h0 : 0 ≤ v) (h1 : v ≤ 1) :
    normalize_confidence v = v := by
  unfold normalize_confidence
  dsimp only
  split_ifs <;> linarith

theorem stabilize_can_proceed (r : AgentResult) (fallback : ℚ) :
    (stabilize_agent_confidence r fallback).can_proceed = r.can_proceed := rfl

theorem stabilize_confidence_ge {r : AgentResult} {fallback : ℚ}
    (hc : r.can_proceed = true) (hf : 7/10 ≤ fallback) :
    7/10 ≤ (stabilize_agent_confidence r fallback).confidence.getD 0 := by
  unfold stabilize_agent_confidence
  dsimp only [Option.getD_some]
  split_ifs with h
  · exact hf
  · rw [hc] at h
    push_neg at h
    exact h rfl

theorem stabilize_confidence_le_one {r : AgentResult} {fallback : ℚ}
    (hf : fallback ≤ 1) :
    (stabilize_agent_confidence r fallback).confidence.getD 0 ≤ 1 := by
  unfold stabilize_agent_confidence
  dsimp only [Option.getD_some]
  split_ifs with h
  · exact hf
  · exact normalize_confidence_le_one _

/-- C1: for every set of five gate verdicts of one live-pipeline round,
`consensus_reached` is true if and only if every one of the five stabilized
verdicts has `can_proceed = true` and the mean of the five normalized
confidences is at least `MIN_CONSENSUS_CONFIDENCE` (0.70); in particular
consensus fails whenever the mean confidence is below 0.70, even with five
approvals. -/
theorem consensus_iff_unanimous_and_confident (order_request : OrderRequest) (raw : FiveResults) :
    (run_live_agent_pipeline order_request raw).consensus_reached = true ↔
      ((∀ a ∈ AGENT_IDS, (agent_responses raw a).can_proceed = true) ∧
        (normalize_confidence ((agent_responses raw AgentId.procurement).confidence.getD 0) +
          normalize_confidence ((agent_responses raw AgentId.production).confidence.getD 0) +
          normalize_confidence ((agent_responses raw AgentId.logistics).confidence.getD 0) +
          normalize_confidence ((agent_responses raw AgentId.finance).confidence.getD 0) +
          normalize_confidence ((agent_responses raw AgentId.sales).confidence.getD 0)) / 5 ≥
            MIN_CONSENSUS_CONFIDENCE) := by
  simp only [run_live_agent_pipeline, AGENT_IDS, List.all_cons, List.all_nil,
    List.map_cons, List.map_nil, List.sum_cons, List.sum_nil, List.length_cons,
    List.length_nil, Bool.and_eq_true, Bool.and_true, decide_eq_true_eq, ge_iff_le,
    List.mem_cons, List.not_mem_nil, or_false, forall_eq_or_imp, forall_eq]
  constructor
  · rintro ⟨⟨hp, hf, hl, hr, hs⟩, havg⟩
    refine ⟨⟨hp, hf, hl, hr, hs⟩, ?_⟩
    push_cast at havg
    linarith
  · rintro ⟨⟨hp, hf, hl, hr, hs⟩, havg⟩
    refine ⟨⟨hp, hf, hl, hr, hs⟩, ?_⟩
    push_cast
    linarith

/-- The five verdicts used to refute the claimed blocker-priority order:
procurement and production both block, with distinct reasonings. -/
def twoBlockersRaw : FiveResults :=
  { procurement_result := { can_proceed := false, confidence := some (9/10), reasoning := "procurement short" }
    production_result := { can_proceed := false, confidence := some (9/10), reasoning := "production overload" }
    logistics_result := { can_proceed := true, confidence := some (9/10), reasoning := "logistics ok" }
    finance_result := { can_proceed := true, confidence := some (9/10), reasoning := "finance ok" }
    sales_result := { can_proceed := true, confidence := some (9/10), reasoning := "sales ok" } }

/-- C2 counterexample: with procurement and production both blocking, the
pipeline's rejection reason is the production agent's reasoning, not the
procurement agent's as the claimed procurement-first priority order predicts. -/
theorem rejection_reason_not_procurement_first :
    (run_live_agent_pipeline { quantity := 5 } twoBlockersRaw).consensus_reached = false ∧
      (run_live_agent_pipeline { quantity := 5 } twoBlockersRaw).message =
        some "production overload" ∧
      "production overload" ≠ "procurement short" := by
  refine ⟨by decide, by decide, by decide⟩

/-- C2 (amended): on failed consensus the rejection reason is the reasoning of
the first blocking gate in the registry order production, finance, logistics,
procurement, sales; when no gate individually blocked it is the fixed string
"Consensus confidence threshold not met.". -/
theorem rejection_reason_first_blocker (order_request : OrderRequest) (raw : FiveResults)
    (h : (run_live_agent_pipeline order_request raw).consensus_reached = false) :
    (run_live_agent_pipeline order_request raw).message = some
      (if (agent_responses raw AgentId.production).can_proceed = false then
        (agent_responses raw AgentId.production).reasoning
      else if (agent_responses raw AgentId.finance).can_proceed = false then
        (agent_responses raw AgentId.finance).reasoning
      else if (agent_responses raw AgentId.logistics).can_proceed = false then
        (agent_responses raw AgentId.logistics).reasoning
      else if (agent_responses raw AgentId.procurement).can_proceed = false then
        (agent_responses raw AgentId.procurement).reasoning
      else if (agent_responses raw AgentId.sales).can_proceed = false then
        (agent_responses raw AgentId.sales).reasoning
      else "Consensus confidence threshold not met.") := by
  revert h
  simp only [run_live_agent_pipeline, AGENT_IDS]
  cases hp : (agent_responses raw AgentId.production).can_proceed <;>
    cases hf : (agent_responses raw AgentId.finance).can_proceed <;>
      cases hl : (agent_responses raw AgentId.logistics).can_proceed <;>
        cases hr : (agent_responses raw AgentId.procurement).can_proceed <;>
          cases hs : (agent_responses raw AgentId.sales).can_proceed <;>
            simp [List.find?, hp, hf, hl, hr, hs]

/-- Witness for the amended C2 theorem at a concrete blocked round. -/
theorem rejection_reason_first_blocker_witness :
    (run_live_agent_pipeline { quantity := 5 } twoBlockersRaw).consensus_reached = false ∧
      (run_live_agent_pipeline { quantity := 5 } twoBlockersRaw).message =
        some "production overload" := by
  refine ⟨by decide, ?_⟩
  rw [rejection_reason_first_blocker { quantity := 5 } twoBlockersRaw (by decide)]
  decide

/-- C3: the negotiation loop runs at most 3 rounds, strictly in the sequence
1, 2, 3, stops right after the first round that reaches consensus, and never
attempts a round after round 3 regardless of convergence. -/
theorem rounds_bounded_and_sequential (round_has_consensus : ℕ → Bool) :
    (orchestrateRounds round_has_consensus).length ≤ 3 ∧
      orchestrateRounds round_has_consensus =
        (if round_has_consensus 1 then [1]
          else if round_has_consensus 2 then [1, 2]
          else [1, 2, 3]) := by
  cases h1 : round_has_consensus 1 <;> cases h2 : round_has_consensus 2 <;>
    cases h3 : round_has_consensus 3 <;>
      simp [orchestrateRounds, runRounds, h1, h2, h3]

/-- The order used to refute the claimed quantity validation. -/
def zeroQtyOrder : SynkOrder := { quantity := some 0 }

/-- A unanimous set of approving verdicts. -/
def allApproveRaw : FiveResults :=
  { procurement_result := { can_proceed := true, confidence := some (9/10), reasoning := "procurement ok" }
    production_result := { can_proceed := true, confidence := some (9/10), reasoning := "production ok" }
    logistics_result := { can_proceed := true, confidence := some (9/10), reasoning := "logistics ok" }
    finance_result := { can_proceed := true, confidence := some (9/10), reasoning := "finance ok" }
    sales_result := { can_proceed := true, confidence := some (9/10), reasoning := "sales ok" } }

/-- C5 counterexample: an order with quantity 0 is not rejected by any
validation; the quantity is clamped to 1, the pipeline runs, and a procurement
gate verdict is produced. -/
theorem zero_quantity_is_evaluated :
    (synkOrderRequest zeroQtyOrder).quantity = 1 ∧
      (run_process_order_for_synk zeroQtyOrder allApproveRaw).status = "SUCCESS" ∧
      ((run_process_order_for_synk zeroQtyOrder allApproveRaw).agent_responses
        AgentId.procurement).can_proceed = true := by
  refine ⟨by decide, ?_, by decide⟩
  simp only [run_process_order_for_synk, run_live_agent_pipeline, agent_responses,
    stabilize_agent_confidence, normalize_confidence, pipelineFallback, FiveResults.get,
    allApproveRaw, AGENT_IDS, MIN_CONSENSUS_CONFIDENCE, List.all_cons, List.all_nil,
    List.map_cons, List.map_nil, List.sum_cons, List.sum_nil, List.length_cons,
    List.length_nil, Option.getD_some]
  norm_num

/-- C5 (amended): an order request with quantity ≤ 0 is not a validation
failure: `run_process_order_for_synk` clamps the quantity to 1 via
`max(1, safe_int(...))` and evaluation proceeds, producing all five gate
verdicts. -/
theorem nonpositive_quantity_clamped (order : SynkOrder) (raw : FiveResults)
    (h : safe_int order.quantity 1 ≤ 0) :
    (synkOrderRequest order).quantity = 1 ∧
      ∀ a ∈ AGENT_IDS, (run_process_order_for_synk order raw).agent_responses a =
        stabilize_agent_confidence (raw.get a) (pipelineFallback a) := by
  constructor
  · simp only [synkOrderRequest]
    omega
  · intro a _
    rfl

/-- Witness for the amended C5 theorem. -/
theorem nonpositive_quantity_clamped_witness :
    safe_int zeroQtyOrder.quantity 1 ≤ 0 ∧
      (synkOrderRequest zeroQtyOrder).quantity = 1 := by
  exact ⟨by decide, (nonpositive_quantity_clamped zeroQtyOrder allApproveRaw (by decide)).1⟩

/-- C10: stabilization leaves every approving verdict with confidence at least
0.70 (the pipeline fallbacks are all ≥ 0.78), so whenever all five raw agent
results report `can_proceed = true` the average confidence is at least 0.70 and
`consensus_reached` is always true — a confidence-only rejection is unreachable
in the live pipeline. -/
theorem all_approve_forces_consensus (order_request : OrderRequest) (raw : FiveResults)
    (h : ∀ a ∈ AGENT_IDS, (raw.get a).can_proceed = true) :
    (∀ a ∈ AGENT_IDS, 7/10 ≤ (agent_responses raw a).confidence.getD 0) ∧
      (run_live_agent_pipeline order_request raw).consensus_reached = true := by
  have hfb : ∀ a : AgentId, 7/10 ≤ pipelineFallback a ∧ pipelineFallback a ≤ 1 := by
    intro a
    cases a <;> norm_num [pipelineFallback]
  have hge : ∀ a ∈ AGENT_IDS, 7/10 ≤ (agent_responses raw a).confidence.getD 0 := by
    intro a ha
    exact stabilize_confidence_ge (h a ha) (hfb a).1
  have hle : ∀ a : AgentId, (agent_responses raw a).confidence.getD 0 ≤ 1 := by
    intro a
    exact stabilize_confidence_le_one (hfb a).2
  refine ⟨hge, ?_⟩
  have hnorm : ∀ a ∈ AGENT_IDS,
      normalize_confidence ((agent_responses raw a).confidence.getD 0) =
        (agent_responses raw a).confidence.getD 0 := by
    intro a ha
    exact normalize_confidence_of_mem (le_trans (by norm_num) (hge a ha)) (hle a)
  rw [consensus_iff_unanimous_and_confident]
  refine ⟨?_, ?_⟩
  · intro a ha
    rw [show (agent_responses raw a).can_proceed = (raw.get a).can_proceed from rfl]
    exact h a ha
  · have m1 := hge AgentId.procurement (by simp [AGENT_IDS])
    have m2 := hge AgentId.production (by simp [AGENT_IDS])
    have m3 := hge AgentId.logistics (by simp [AGENT_IDS])
    have m4 := hge AgentId.finance (by simp [AGENT_IDS])
    have m5 := hge AgentId.sales (by simp [AGENT_IDS])
    rw [hnorm AgentId.procurement (by simp [AGENT_IDS]),
      hnorm AgentId.production (by simp [AGENT_IDS]),
      hnorm AgentId.logistics (by simp [AGENT_IDS]),
      hnorm AgentId.finance (by simp [AGENT_IDS]),
      hnorm AgentId.sales (by simp [AGENT_IDS]), MIN_CONSENSUS_CONFIDENCE]
    linarith

/-- A unanimous approval whose raw confidences sit below 0.70, exercising the
stabilization floor. -/
def lowConfidenceRaw : FiveResults :=
  { procurement_result := { can_proceed := true, confidence := some (1/10), reasoning := "procurement ok" }
    production_result := { can_proceed := true, confidence := some (2/10), reasoning := "production ok" }
    logistics_result := { can_proceed := true, confidence := none, reasoning := "logistics ok" }
    finance_result := { can_proceed := true, confidence := some (1/2), reasoning := "finance ok" }
    sales_result := { can_proceed := true, confidence := some (65/100), reasoning := "sales ok" } }

/-- Witness for C10 at a unanimous low-confidence round. -/
theorem all_approve_forces_consensus_witness :
    (∀ a ∈ AGENT_IDS, (lowConfidenceRaw.get a).can_proceed = true) ∧
      (run_live_agent_pipeline { quantity := 7 } lowConfidenceRaw).consensus_reached = true := by
  refine ⟨by decide, ?_⟩
  exact (all_approve_forces_consensus { quantity := 7 } lowConfidenceRaw (by decide)).2

/-- One inventory record (agents/runtime data): stock and unit cost per material. -/
structure InventoryItem where
  material_id : String
  stock : ℤ
  unit_cost : ℚ
deriving Repr, DecidableEq

/-- One BOM entry of a product: material id and quantity per unit.  BOM
quantities may be numeric in the data, so the source's `int(...)` coercions are
modelled with `pytrunc`. -/
structure BomEntry where
  material_id : String
  qty_per_unit : ℚ
deriving Repr, DecidableEq

/-- `InventoryManager.get_material_stock` (runtime/inventory.py): the stock of
the first inventory record with the requested material id. -/
def get_material_stock (inventory : List InventoryItem) (material_id : String) : Option ℤ :=
  (inventory.find? fun item => item.material_id == material_id).map fun item => item.stock

/-- `InventoryManager.get_material_price` (runtime/inventory.py). -/
def get_material_price (inventory : List InventoryItem) (material_id : String) : Option ℚ :=
  (inventory.find? fun item => item.material_id == material_id).map fun item => item.unit_cost

/-- One per-material requirement line of `build_material_requirements`
(agents/procurement/tools.py). -/
structure MaterialReq where
  material_id : String
  quantity_per_unit : ℤ
  required : ℤ
  available : ℤ
  shortfall : ℤ
  is_available : Bool
  unit_cost : ℚ
  line_cost : ℚ
deriving Repr, DecidableEq

/-- The result of `build_material_requirements`. -/
structure Requirements where
  quantity : ℤ
  materials : List MaterialReq
  feasible_quantity : ℤ
deriving Repr, DecidableEq

/-- `build_material_requirements` from agents/procurement/tools.py.  The BOM of
the order's SKU (the result of `inventory_manager.get_product_bom`) is an input;
`none` models an unknown SKU. -/
def build_material_requirements (bom : Option (List BomEntry))
    (inventory : List InventoryItem) (order_quantity : Option ℤ) : Requirements :=
  let quantity := max 0 (safe_int order_quantity 0)
  match bom with
  | none => { quantity := quantity, materials := [], feasible_quantity := 0 }
  | some entries =>
    let materials := entries.map fun entry =>
      let required := pytrunc (entry.qty_per_unit * (quantity : ℚ))
      let available := (get_material_stock inventory entry.material_id).getD 0
      let unit_cost := (get_material_price inventory entry.material_id).getD 0
      { material_id := entry.material_id
        quantity_per_unit := pytrunc entry.qty_per_unit
        required := required
        available := available
        shortfall := max 0 (required - available)
        is_available := decide (required ≤ available)
        unit_cost := unit_cost
        line_cost := round2 ((required : ℚ) * unit_cost) }
    let immediate_units := entries.map fun entry =>
      Int.fdiv ((get_material_stock inventory entry.material_id).getD 0)
        (max 1 (pytrunc entry.qty_per_unit))
    let feasible_quantity :=
      match immediate_units.min? with
      | none => 0
      | some m => m
    { quantity := quantity, materials := materials, feasible_quantity := max 0 feasible_quantity }

/-- One material's coverage in a supplier query result. -/
structure SupplierCoverageItem where
  shortfall : ℤ
  supplier_available : ℤ
  reserved_quantity : ℤ
  price_multiplier : ℚ
deriving Repr, DecidableEq

/-- One material's availability at a supplier (data/suppliers.json). -/
structure SupplierMaterial where
  material_id : String
  available : ℤ
  price_multiplier : Option ℚ
deriving Repr, DecidableEq

/-- One supplier of the supplier catalog. -/
structure SupplierInfo where
  name : String
  lead_time_days : ℤ
  materials : List SupplierMaterial
deriving Repr, DecidableEq

/-- The result of `query_supplier_inventory`. -/
structure SupplierQueryResult where
  supplier : String
  lead_time_days : ℤ
  coverage : List (String × SupplierCoverageItem)
  can_fulfill : Bool
deriving Repr, DecidableEq

/-- `query_supplier_inventory` from agents/procurement/tools.py, applied to the
current shortage lines. -/
def query_supplier_inventory (supplier : SupplierInfo) (shortages : List MaterialReq) :
    SupplierQueryResult :=
  let coverage := shortages.map fun shortage =>
    let shortfall := shortage.shortfall
    let supplier_item := supplier.materials.find? fun m => m.material_id == shortage.material_id
    let supplier_available := (supplier_item.map fun m => m.available).getD 0
    let reserved := min shortfall supplier_available
    (shortage.material_id,
      { shortfall := shortfall
        supplier_available := supplier_available
        reserved_quantity := reserved
        price_multiplier := ((supplier_item.map fun m => m.price_multiplier).getD none).getD 1 })
  { supplier := supplier.name
    lead_time_days := supplier.lead_time_days
    coverage := coverage
    can_fulfill := coverage.all fun c => decide (c.2.shortfall ≤ c.2.reserved_quantity) }

/-- The result of `reserve_materials`: the positive reservations. -/
structure ReservationResult where
  supplier : String
  reserved_materials : List (String × SupplierCoverageItem)
  lead_time_days : ℤ
deriving Repr, DecidableEq

/-- `reserve_materials` from agents/procurement/tools.py (the reservation id
string is not modelled). -/
def reserve_materials (supplier_result : SupplierQueryResult) : ReservationResult :=
  { supplier := supplier_result.supplier
    reserved_materials := supplier_result.coverage.filter fun c => decide (0 < c.2.reserved_quantity)
    lead_time_days := supplier_result.lead_time_days }

/-- `submit_purchase_order` from agents/procurement/tools.py: the total cost of
the reserved lines (the purchase-order id and line items are not modelled). -/
def submit_purchase_order_total (inventory : List InventoryItem)
    (reserved_materials : List (String × SupplierCoverageItem)) : ℚ :=
  round2 ((reserved_materials.map fun entry =>
    let quantity := entry.2.reserved_quantity
    let unit_cost := (get_material_price inventory entry.1).getD 0
    let effective_unit_cost := round2 (unit_cost * entry.2.price_multiplier)
    round2 (effective_unit_cost * (quantity : ℚ))).sum)

/-- The procurement gate verdict fields produced by
`LLMProcurementAgent._deterministic_inventory_check`. -/
structure ProcurementVerdict where
  can_proceed : Bool
  reasoning : String
  confidence : ℚ
  total_cost : ℚ
  material_availability : List MaterialReq
deriving Repr, DecidableEq

/-- `_deterministic_inventory_check` from agents/procurement/llm.py with no
LLM-supplied `tool_results` (the deterministic re-computation path: every tool
result is computed by the deterministic tool functions themselves). -/
def deterministic_inventory_check (product_sku : String) (bom : Option (List BomEntry))
    (inventory : List InventoryItem) (primary : SupplierInfo) (alternate : SupplierInfo)
    (order_quantity : Option ℤ) (requested_delivery_days : ℤ) : ProcurementVerdict :=
  let requirements := build_material_requirements bom inventory order_quantity
  if requirements.materials = [] then
    { can_proceed := false
      reasoning := "Product SKU \"" ++ product_sku ++ "\" not found in material BOM."
      confidence := 95/100
      total_cost := 0
      material_availability := [] }
  else
    let material_availability := requirements.materials
    let total_cost := round2 ((material_availability.map fun m => m.line_cost).sum)
    let shortages := material_availability.filter fun m => !m.is_available
    if shortages = [] then
      { can_proceed := true
        reasoning := "All required materials are available in inventory."
        confidence := 93/100
        total_cost := round2 total_cost
        material_availability := material_availability }
    else
      let shortage_names := String.intercalate ", " (shortages.map fun m => m.material_id)
      let primary_result := query_supplier_inventory primary shortages
      let alternate_result := query_supplier_inventory alternate shortages
      let primary_lead_time := primary_result.lead_time_days
      let alternate_lead_time := alternate_result.lead_time_days
      let buffer_days := (2 : ℤ)
      if primary_result.can_fulfill ∧ primary_lead_time + buffer_days ≤ requested_delivery_days then
        let reservation := reserve_materials primary_result
        let purchase_order_total := submit_purchase_order_total inventory reservation.reserved_materials
        { can_proceed := true
          reasoning := "Current inventory is short for " ++ shortage_names ++ ", but " ++
            primary.name ++ " can replenish the missing material within " ++
            toString primary_lead_time ++ " days and keep the order feasible."
          confidence := 86/100
          total_cost := round2 (round2 (total_cost + purchase_order_total))
          material_availability := material_availability }
      else if alternate_result.can_fulfill ∧ alternate_lead_time + buffer_days ≤ requested_delivery_days then
        let reservation := reserve_materials alternate_result
        let purchase_order_total := submit_purchase_order_total inventory reservation.reserved_materials
        { can_proceed := true
          reasoning := "Current inventory is short for " ++ shortage_names ++ ", but " ++
            alternate_result.supplier ++ " can replenish the shortage within " ++
            toString alternate_lead_time ++ " days and support the requested schedule."
          confidence := 82/100
          total_cost := round2 (round2 (total_cost + purchase_order_total))
          material_availability := material_availability }
      else
        { can_proceed := false
          reasoning := "Insufficient inventory for: " ++ shortage_names ++
            ". Earliest realistic replenishment is " ++
            toString (primary_lead_time + buffer_days) ++ " days."
          confidence := 9/10
          total_cost := round2 total_cost
          material_availability := material_availability }

theorem build_material_line_cost (bom : Option (List BomEntry))
    (inventory : List InventoryItem) (order_quantity : Option ℤ) :
    ∀ m ∈ (build_material_requirements bom inventory order_quantity).materials,
      m.line_cost = round2 ((m.required : ℚ) * m.unit_cost) := by
  intro m hm
  cases bom with
  | none => simp [build_material_requirements] at hm
  | some entries =>
    simp only [build_material_requirements, List.mem_map] at hm
    obtain ⟨e, _, rfl⟩ := hm
    rfl

/-- C6 (amended): for every order whose SKU has a BOM and whose BOM materials
all have stock covering the requirement, the deterministic procurement check
returns `can_proceed = true` with confidence 0.93 and
`total_cost = round(Σ round(required * unit_cost, 2), 2)` — the per-line costs
are rounded to cents before summing. -/
theorem procurement_all_available (product_sku : String) (bom : Option (List BomEntry))
    (inventory : List InventoryItem) (primary alternate : SupplierInfo)
    (order_quantity : Option ℤ) (requested_delivery_days : ℤ)
    (hbom : (build_material_requirements bom inventory order_quantity).materials ≠ [])
    (hav : ∀ m ∈ (build_material_requirements bom inventory order_quantity).materials,
      m.is_available = true) :
    (deterministic_inventory_check product_sku bom inventory primary alternate
      order_quantity requested_delivery_days).can_proceed = true ∧
    (deterministic_inventory_check product_sku bom inventory primary alternate
      order_quantity requested_delivery_days).confidence = 93/100 ∧
    (deterministic_inventory_check product_sku bom inventory primary alternate
      order_quantity requested_delivery_days).total_cost =
      round2 (((build_material_requirements bom inventory order_quantity).materials.map
        fun m => round2 ((m.required : ℚ) * m.unit_cost)).sum) := by
  have hfilter : (build_material_requirements bom inventory order_quantity).materials.filter
      (fun m => !m.is_available) = [] := by
    rw [List.filter_eq_nil_iff]
    intro m hm
    simp [hav m hm]
  have hmap : (build_material_requirements bom inventory order_quantity).materials.map
        (fun m => m.line_cost) =
      (build_material_requirements bom inventory order_quantity).materials.map
        (fun m => round2 ((m.required : ℚ) * m.unit_cost)) :=
    List.map_congr_left (build_material_line_cost bom inventory order_quantity)
  simp only [deterministic_inventory_check]
  rw [if_neg hbom, hfilter]
  simp only [if_pos rfl, hmap]
  refine ⟨rfl, rfl, ?_⟩
  exact round2_of_twoDec (round2_isTwoDec _)

/-- The BOM used in the C6 examples: two kilograms of M1 per unit. -/
def bomSpecA : List BomEntry := [{ material_id := "M1", qty_per_unit := 2 }]

/-- The inventory used in the C6 witness: ample M1 at 3 dollars per kg. -/
def invSpecA : List InventoryItem := [{ material_id := "M1", stock := 10000, unit_cost := 3 }]

/-- The primary supplier used in the C6 examples (its data is unused on the
all-available path). -/
def chemCorpAsia : SupplierInfo := { name := "ChemCorp Asia", lead_time_days := 10, materials := [] }

/-- The alternate supplier used in the C6 examples. -/
def euroChemGmbH : SupplierInfo := { name := "EuroChem GmbH", lead_time_days := 14, materials := [] }

/-- Witness for C6 at the spec's scenario A (quantity 100, 2 kg M1 at 3 dollars,
stock 10000): total cost 600, approved at confidence 0.93. -/
theorem procurement_all_available_witness :
    ((build_material_requirements (some bomSpecA) invSpecA (some 100)).materials ≠ [] ∧
      (∀ m ∈ (build_material_requirements (some bomSpecA) invSpecA (some 100)).materials,
        m.is_available = true)) ∧
    (deterministic_inventory_check "PMP-STD-100" (some bomSpecA) invSpecA chemCorpAsia
      euroChemGmbH (some 100) 18).can_proceed = true ∧
    (deterministic_inventory_check "PMP-STD-100" (some bomSpecA) invSpecA chemCorpAsia
      euroChemGmbH (some 100) 18).total_cost = 600 := by
  have hM1 : (("M1" : String) == "M1") = true := by decide
  have h1 : (build_material_requirements (some bomSpecA) invSpecA (some 100)).materials ≠ [] := by
    norm_num [build_material_requirements, bomSpecA, invSpecA, safe_int]
  have h2 : ∀ m ∈ (build_material_requirements (some bomSpecA) invSpecA (some 100)).materials,
      m.is_available = true := by
    norm_num [build_material_requirements, bomSpecA, invSpecA, safe_int, get_material_stock,
      get_material_price, pytrunc, List.find?, hM1]
  have h := procurement_all_available "PMP-STD-100" (some bomSpecA) invSpecA chemCorpAsia
    euroChemGmbH (some 100) 18 h1 h2
  refine ⟨⟨h1, h2⟩, h.1, ?_⟩
  rw [h.2.2]
  norm_num [build_material_requirements, bomSpecA, invSpecA, safe_int, get_material_stock,
    get_material_price, pytrunc, List.find?, hM1, round2, roundHalfEven]

/-- The inventory used in the C6 counterexample: two materials at 0.4 cents
each, ample stock. -/
def invSubCent : List InventoryItem :=
  [{ material_id := "A", stock := 10, unit_cost := 1/250 },
   { material_id := "B", stock := 10, unit_cost := 1/250 }]

/-- The BOM used in the C6 counterexample: one unit of A and one of B. -/
def bomSubCent : List BomEntry :=
  [{ material_id := "A", qty_per_unit := 1 }, { material_id := "B", qty_per_unit := 1 }]

/-- C6 counterexample: with two fully available BOM lines of 0.4 cents each,
the code's total cost (per-line costs rounded to cents, then summed) is 0,
while the claimed `round(Σ required*unit_cost, 2)` is 0.01. -/
theorem procurement_total_cost_rounds_per_line :
    (∀ m ∈ (build_material_requirements (some bomSubCent) invSubCent (some 1)).materials,
      m.is_available = true) ∧
    (deterministic_inventory_check "SKU-X" (some bomSubCent) invSubCent chemCorpAsia
      euroChemGmbH (some 1) 18).can_proceed = true ∧
    (deterministic_inventory_check "SKU-X" (some bomSubCent) invSubCent chemCorpAsia
      euroChemGmbH (some 1) 18).total_cost = 0 ∧
    round2 (((build_material_requirements (some bomSubCent) invSubCent (some 1)).materials.map
      fun m => (m.required : ℚ) * m.unit_cost).sum) = 1/100 ∧
    (0 : ℚ) ≠ 1/100 := by
  have hAA : (("A" : String) == "A") = true := by decide
  have hAB : (("A" : String) == "B") = false := by decide
  have hBB : (("B" : String) == "B") = true := by decide
  have hr1 : round2 (1/250) = 0 := by
    norm_num [round2, roundHalfEven, Int.floor_eq_iff]
  have hr0 : round2 0 = 0 := round2_of_twoDec ⟨0, by norm_num⟩
  have hr3 : round2 (1/125) = 1/100 := by
    norm_num [round2, roundHalfEven, Int.floor_eq_iff]
  refine ⟨?_, ?_, ?_, ?_, by norm_num⟩
  · norm_num [build_material_requirements, bomSubCent, invSubCent, safe_int, get_material_stock,
      get_material_price, pytrunc, List.find?, hAA, hAB, hBB]
  · norm_num [deterministic_inventory_check, build_material_requirements, bomSubCent, invSubCent,
      safe_int, get_material_stock, get_material_price, pytrunc, List.find?, List.filter,
      hAA, hAB, hBB, hr1, hr0]
    simp
  · norm_num [deterministic_inventory_check, build_material_requirements, bomSubCent, invSubCent,
      safe_int, get_material_stock, get_material_price, pytrunc, List.find?, List.filter,
      hAA, hAB, hBB, hr1, hr0]
    simp
  · norm_num [build_material_requirements, bomSubCent, invSubCent, safe_int, get_material_stock,
      get_material_price, pytrunc, List.find?, hAA, hAB, hBB, hr3]

/-- One factory line supporting the order's SKU (agents/production/tools.py
filters `factory_schedule['lines']` by supported SKU; the filtered list is the
input here). -/
structure FactoryLine where
  base_capacity : Option ℤ
  current_load : Option ℚ
deriving Repr, DecidableEq

/-- The per-line available capacity and their sum computed by
`check_production_capacity`: `int(round(base * max(0, 1 - load) * multiplier))`
summed over lines; with no supporting line, `int(policy_weekly * multiplier)`. -/
def effective_weekly_capacity_calc (lines : List FactoryLine)
    (policy_weekly_capacity : ℤ) (capacity_multiplier : ℚ) : ℤ :=
  if lines.isEmpty then pytrunc ((policy_weekly_capacity : ℚ) * capacity_multiplier)
  else (lines.map fun line =>
    roundHalfEven (((line.base_capacity.getD 0 : ℤ) : ℚ) *
      max 0 (1 - line.current_load.getD 0) * capacity_multiplier)).sum

/-- The result record of `check_production_capacity` (the line-allocation list
and strategy echo fields are not modelled). -/
structure CapacityResult where
  effective_weekly_capacity : ℤ
  production_days : ℤ
  capacity_ok : Bool
  schedule_ok : Bool
  changeover_penalty_days : ℤ
deriving Repr, DecidableEq

/-- `check_production_capacity` from agents/production/tools.py.  The policy
values and the strategy profile's multiplier/changeover penalty are explicit
inputs (the source reads them from `production_policy` and
`factory_schedule['strategy_profiles']`). -/
def check_production_capacity (lines : List FactoryLine) (policy_weekly_capacity : ℤ)
    (working_days planning_weeks : ℤ) (capacity_multiplier : ℚ)
    (changeover_penalty_days : ℤ) (quantity requested_days : ℤ) : CapacityResult :=
  let effective := effective_weekly_capacity_calc lines policy_weekly_capacity capacity_multiplier
  let estimated_weeks := (quantity : ℚ) / ((max 1 effective : ℤ) : ℚ)
  let production_days := max 5 (⌈estimated_weeks * (working_days : ℚ)⌉ + changeover_penalty_days)
  { effective_weekly_capacity := max 1 effective
    production_days := production_days
    capacity_ok := decide (quantity ≤ effective * planning_weeks)
    schedule_ok := decide (production_days ≤ requested_days)
    changeover_penalty_days := changeover_penalty_days }

/-- The result of `calculate_overtime`. -/
structure OvertimeResult where
  recommended_hours_per_day : ℤ
  total_overtime_hours : ℤ
  overtime_cost : ℚ
deriving Repr, DecidableEq

/-- `calculate_overtime` from agents/production/tools.py. -/
def calculate_overtime (max_ot_per_day : ℤ) (overtime_cost_per_hour : ℚ)
    (default_overtime_hours : ℤ) (shortfall_days : ℤ) : OvertimeResult :=
  let recommended_overtime := min (max_ot_per_day + default_overtime_hours) (max_ot_per_day + 2)
  let total_hours := max 0 shortfall_days * recommended_overtime
  { recommended_hours_per_day := recommended_overtime
    total_overtime_hours := total_hours
    overtime_cost := round2 ((total_hours : ℚ) * overtime_cost_per_hour) }

/-- The result of `recalculate_schedule`. -/
structure ScheduleResult where
  capacity : CapacityResult
  overtime : OvertimeResult
  adjusted_days : ℤ
  can_meet_requested_days : Bool
deriving Repr, DecidableEq

/-- `recalculate_schedule` from agents/production/tools.py:
`adjusted_days = max(4, production_days - min(shortfall, recommended_overtime // 2))`,
`can_meet_requested_days = adjusted_days <= requested_days and capacity_ok`. -/
def recalculate_schedule (lines : List FactoryLine) (policy_weekly_capacity : ℤ)
    (working_days planning_weeks : ℤ) (capacity_multiplier : ℚ)
    (changeover_penalty_days : ℤ) (max_ot_per_day : ℤ) (overtime_cost_per_hour : ℚ)
    (default_overtime_hours : ℤ) (quantity requested_days : ℤ) : ScheduleResult :=
  let capacity := check_production_capacity lines policy_weekly_capacity working_days
    planning_weeks capacity_multiplier changeover_penalty_days quantity requested_days
  let shortfall_days := max 0 (capacity.production_days - requested_days)
  let overtime := calculate_overtime max_ot_per_day overtime_cost_per_hour
    default_overtime_hours shortfall_days
  let adjusted_days := max 4 (capacity.production_days -
    min shortfall_days (Int.fdiv overtime.recommended_hours_per_day 2))
  { capacity := capacity
    overtime := overtime
    adjusted_days := adjusted_days
    can_meet_requested_days := decide (adjusted_days ≤ requested_days) && capacity.capacity_ok }

/-- The production gate verdict fields produced by
`LLMProductionAgent._fallback` (the reasoning strings are not modelled). -/
structure ProductionVerdict where
  can_proceed : Bool
  production_days : ℤ
  overtime_hours : ℤ
  confidence : ℚ
deriving Repr, DecidableEq

/-- `LLMProductionAgent._fallback` from agents/production/llm.py with no
LLM-supplied `tool_results` (every tool result is recomputed by the
deterministic tool functions): `can_proceed = capacity_ok and
can_meet_requested_days`, `production_days = adjusted_days` (via the source's
`or`-chains), overtime from the adjusted-schedule shortfall. -/
def production_fallback (lines : List FactoryLine) (policy_weekly_capacity : ℤ)
    (working_days planning_weeks : ℤ) (capacity_multiplier : ℚ)
    (changeover_penalty_days : ℤ) (max_ot_per_day : ℤ) (overtime_cost_per_hour : ℚ)
    (default_overtime_hours : ℤ) (quantity requested_days : ℤ) : ProductionVerdict :=
  let capacity := check_production_capacity lines policy_weekly_capacity working_days
    planning_weeks capacity_multiplier changeover_penalty_days quantity requested_days
  let schedule := recalculate_schedule lines policy_weekly_capacity working_days
    planning_weeks capacity_multiplier changeover_penalty_days max_ot_per_day
    overtime_cost_per_hour default_overtime_hours quantity requested_days
  let overtime := calculate_overtime max_ot_per_day overtime_cost_per_hour
    default_overtime_hours (max 0 (schedule.adjusted_days - requested_days))
  let production_days := pyOrI (pyOrI schedule.adjusted_days capacity.production_days) requested_days
  let overtime_hours := pyOrI overtime.recommended_hours_per_day 0
  let capacity_ok := capacity.capacity_ok
  let schedule_ok := schedule.can_meet_requested_days
  let can_proceed := capacity_ok && schedule_ok
  { can_proceed := can_proceed
    production_days := production_days
    overtime_hours := overtime_hours
    confidence := if can_proceed then 84/100 else if !capacity_ok then 58/100 else 64/100 }

/-- C7 counterexample: with no supporting lines, policy capacity 4000,
multiplier 1, no changeover penalty, 5 working days, 4 planning weeks, max
overtime 4 h/day, quantity 4001 and requested 5 days, the capacity check gives
production_days = 6 and schedule_ok = false, yet the evaluator returns
can_proceed = true and production_days = 5: overtime recovery
(adjusted_days = 5 ≤ 5) overrides the claimed `schedule_ok` conjunct, so the
verdict is not `capacity_ok AND (production_days <= requested_days)`. -/
theorem production_schedule_ok_not_the_gate :
    (check_production_capacity [] 4000 5 4 1 0 4001 5).production_days = 6 ∧
      (check_production_capacity [] 4000 5 4 1 0 4001 5).capacity_ok = true ∧
      (check_production_capacity [] 4000 5 4 1 0 4001 5).schedule_ok = false ∧
      (production_fallback [] 4000 5 4 1 0 4 45 0 4001 5).can_proceed = true ∧
      (production_fallback [] 4000 5 4 1 0 4 45 0 4001 5).production_days = 5 := by
  have hceil : (⌈(4001 : ℚ) / 800⌉ : ℤ) = 6 := by
    rw [Int.ceil_eq_iff]
    norm_num
  have hfdiv : Int.fdiv 4 2 = 2 := by decide
  refine ⟨?_, ?_, ?_, ?_, ?_⟩ <;>
    norm_num [production_fallback, recalculate_schedule, check_production_capacity,
      calculate_overtime, effective_weekly_capacity_calc, pytrunc, pyOrI, hceil, hfdiv]

/-- C7 (amended): inside `check_production_capacity` the claimed formulas hold
(`production_days = max(5, ceil(quantity/effective_capacity * working_days) +
changeover_penalty)`, `capacity_ok = quantity <= effective_capacity *
max_planning_weeks`, `schedule_ok = production_days <= requested_days`), but
the evaluator returns `production_days = adjusted_days = max(4,
capacity_days - min(shortfall, recommended_overtime // 2))` and
`can_proceed = capacity_ok AND (adjusted_days <= requested_days)` — overtime
recovery replaces the raw `schedule_ok` test. -/
theorem production_verdict_formulas (lines : List FactoryLine)
    (pw w pk : ℤ) (cm : ℚ) (ch mo : ℤ) (oc : ℚ) (dh q rd : ℤ) :
    (check_production_capacity lines pw w pk cm ch q rd).production_days =
      max 5 (⌈(q : ℚ) / ((max 1 (effective_weekly_capacity_calc lines pw cm) : ℤ) : ℚ) *
        (w : ℚ)⌉ + ch) ∧
    (check_production_capacity lines pw w pk cm ch q rd).capacity_ok =
      decide (q ≤ effective_weekly_capacity_calc lines pw cm * pk) ∧
    (check_production_capacity lines pw w pk cm ch q rd).schedule_ok =
      decide ((check_production_capacity lines pw w pk cm ch q rd).production_days ≤ rd) ∧
    (recalculate_schedule lines pw w pk cm ch mo oc dh q rd).adjusted_days =
      max 4 ((check_production_capacity lines pw w pk cm ch q rd).production_days -
        min (max 0 ((check_production_capacity lines pw w pk cm ch q rd).production_days - rd))
          (Int.fdiv (min (mo + dh) (mo + 2)) 2)) ∧
    (production_fallback lines pw w pk cm ch mo oc dh q rd).production_days =
      (recalculate_schedule lines pw w pk cm ch mo oc dh q rd).adjusted_days ∧
    (production_fallback lines pw w pk cm ch mo oc dh q rd).can_proceed =
      ((check_production_capacity lines pw w pk cm ch q rd).capacity_ok &&
        decide ((recalculate_schedule lines pw w pk cm ch mo oc dh q rd).adjusted_days ≤ rd)) := by
  refine ⟨rfl, rfl, rfl, rfl, ?_, ?_⟩
  · have hne : (recalculate_schedule lines pw w pk cm ch mo oc dh q rd).adjusted_days ≠ 0 := by
      have h4 : (4 : ℤ) ≤ (recalculate_schedule lines pw w pk cm ch mo oc dh q rd).adjusted_days :=
        le_max_left _ _
      omega
    show pyOrI (pyOrI (recalculate_schedule lines pw w pk cm ch mo oc dh q rd).adjusted_days
      (check_production_capacity lines pw w pk cm ch q rd).production_days) rd = _
    have hinner : pyOrI (recalculate_schedule lines pw w pk cm ch mo oc dh q rd).adjusted_days
        (check_production_capacity lines pw w pk cm ch q rd).production_days =
          (recalculate_schedule lines pw w pk cm ch mo oc dh q rd).adjusted_days := by
      rw [pyOrI, if_neg hne]
    rw [hinner, pyOrI, if_neg hne]
  · show ((check_production_capacity lines pw w pk cm ch q rd).capacity_ok &&
      (decide ((recalculate_schedule lines pw w pk cm ch mo oc dh q rd).adjusted_days ≤ rd) &&
        (check_production_capacity lines pw w pk cm ch q rd).capacity_ok)) = _
    cases hc : (check_production_capacity lines pw w pk cm ch q rd).capacity_ok <;>
      cases hs : decide ((recalculate_schedule lines pw w pk cm ch mo oc dh q rd).adjusted_days ≤ rd) <;>
        simp

/-- The result of `negotiate_price` (agents/finance/tools.py). -/
structure NegotiationResult where
  requested_price : ℚ
  minimum_viable_price : ℚ
  customer_price_ceiling : ℚ
  within_customer_tolerance : Bool
deriving Repr, DecidableEq

/-- `negotiate_price` from agents/finance/tools.py: the customer price ceiling
is `round(requested_price * (1 + max_price_uplift), 2)`. -/
def negotiate_price (max_price_uplift requested_price minimum_viable_price : ℚ) :
    NegotiationResult :=
  let price_ceiling := round2 (requested_price * (1 + max_price_uplift))
  { requested_price := requested_price
    minimum_viable_price := minimum_viable_price
    customer_price_ceiling := price_ceiling
    within_customer_tolerance := decide (minimum_viable_price ≤ price_ceiling) }

/-- The result of `compute_compromise` (agents/finance/tools.py). -/
structure CompromiseResult where
  compromise_price : ℚ
  fully_recovers_margin : Bool
deriving Repr, DecidableEq

/-- `compute_compromise` from agents/finance/tools.py:
`compromise_price = min(ceiling, max(requested_price, minimum_viable_price))`,
rounded to cents in the returned dict. -/
def compute_compromise (requested_price minimum_viable_price customer_price_ceiling : ℚ) :
    CompromiseResult :=
  let compromise_price := min customer_price_ceiling (max requested_price minimum_viable_price)
  { compromise_price := round2 compromise_price
    fully_recovers_margin := decide (minimum_viable_price ≤ compromise_price) }

/-- The result of `verify_final_margin` (agents/finance/tools.py). -/
structure MarginCheck where
  margin : ℚ
  margin_floor : ℚ
  meets_floor : Bool
deriving Repr, DecidableEq

/-- `verify_final_margin` from agents/finance/tools.py:
`margin = 0 if final_price <= 0 else (final_price - unit_cost)/final_price`;
`meets_floor` compares the unrounded margin with the floor. -/
def verify_final_margin (margin_floor final_price unit_cost : ℚ) : MarginCheck :=
  let margin := if final_price ≤ 0 then 0 else (final_price - unit_cost) / final_price
  { margin := round4 margin
    margin_floor := margin_floor
    meets_floor := decide (margin_floor ≤ margin) }

/-- The finance gate verdict fields produced by `LLMFinanceAgent._fallback`
(the reasoning string and discount-rate echo are not modelled). -/
structure FinanceVerdict where
  can_proceed : Bool
  final_price : ℚ
  total_deal_value : ℚ
  margin : ℚ
  confidence : ℚ
deriving Repr, DecidableEq

/-- The pricing tail of `LLMFinanceAgent._fallback` (agents/finance/llm.py,
lines 193-235) with no LLM-supplied `tool_results`: from the rush-adjusted
`unit_cost`, the selected target `margin`, the volume `discount_rate` and the
customer's `max_price_uplift`, compute the minimum viable price, the customer
ceiling, the compromise, the final price and the margin gate.  The upstream
unit-economics and rush-surcharge steps that produce `unit_cost` are inputs. -/
def finance_fallback_pricing (unit_cost margin discount_rate requested_price
    max_price_uplift margin_floor : ℚ) (quantity : ℤ) : FinanceVerdict :=
  let minimum_viable_price := round2 ((unit_cost * (1 + margin)) * (1 - discount_rate))
  let negotiation := negotiate_price max_price_uplift requested_price minimum_viable_price
  let compromise := compute_compromise requested_price minimum_viable_price
    (pyOrQ negotiation.customer_price_ceiling requested_price)
  let final_price := round2 (max requested_price compromise.compromise_price)
  let margin_check := verify_final_margin margin_floor final_price unit_cost
  let total_deal_value := round2 (final_price * (quantity : ℚ))
  { can_proceed := margin_check.meets_floor
    final_price := final_price
    total_deal_value := total_deal_value
    margin := pyOrQ margin_check.margin margin
    confidence := if margin_check.meets_floor then 84/100 else 66/100 }

/-- C8: for every finance evaluation (with a positive cent-valued requested
price and a nonnegative customer uplift), the final price equals
`max(requested_price, min(customer_price_ceiling, max(requested_price,
minimum_viable_price)))` and the gate's `can_proceed` is true exactly when the
actual margin `(final_price - unit_cost)/final_price` is at least the
configured margin floor. -/
theorem finance_final_price_and_gate (unit_cost margin discount_rate requested_price
    max_price_uplift margin_floor : ℚ) (quantity : ℤ)
    (hreq : IsTwoDec requested_price) (hpos : 0 < requested_price)
    (huplift : 0 ≤ max_price_uplift) :
    (finance_fallback_pricing unit_cost margin discount_rate requested_price
      max_price_uplift margin_floor quantity).final_price =
      max requested_price
        (min (round2 (requested_price * (1 + max_price_uplift)))
          (max requested_price (round2 ((unit_cost * (1 + margin)) * (1 - discount_rate))))) ∧
    (finance_fallback_pricing unit_cost margin discount_rate requested_price
      max_price_uplift margin_floor quantity).can_proceed =
      decide (margin_floor ≤
        ((finance_fallback_pricing unit_cost margin discount_rate requested_price
          max_price_uplift margin_floor quantity).final_price - unit_cost) /
          (finance_fallback_pricing unit_cost margin discount_rate requested_price
            max_price_uplift margin_floor quantity).final_price) := by
  have hceil : IsTwoDec (round2 (requested_price * (1 + max_price_uplift))) := round2_isTwoDec _
  have hmvp : IsTwoDec (round2 ((unit_cost * (1 + margin)) * (1 - discount_rate))) :=
    round2_isTwoDec _
  have hceil_ge : requested_price ≤ round2 (requested_price * (1 + max_price_uplift)) := by
    apply le_round2_of_le hreq
    nlinarith
  have hceil_ne : round2 (requested_price * (1 + max_price_uplift)) ≠ 0 := by
    intro h0
    rw [h0] at hceil_ge
    linarith
  have hcompr : IsTwoDec (min (round2 (requested_price * (1 + max_price_uplift)))
      (max requested_price (round2 ((unit_cost * (1 + margin)) * (1 - discount_rate))))) :=
    twoDec_min hceil (twoDec_max hreq hmvp)
  have hfinal_eq : (finance_fallback_pricing unit_cost margin discount_rate requested_price
      max_price_uplift margin_floor quantity).final_price =
      max requested_price
        (min (round2 (requested_price * (1 + max_price_uplift)))
          (max requested_price (round2 ((unit_cost * (1 + margin)) * (1 - discount_rate))))) := by
    show round2 (max requested_price (round2 (min (pyOrQ (round2 (requested_price *
      (1 + max_price_uplift))) requested_price) (max requested_price
        (round2 ((unit_cost * (1 + margin)) * (1 - discount_rate))))))) = _
    rw [pyOrQ, if_neg hceil_ne, round2_of_twoDec hcompr,
      round2_of_twoDec (twoDec_max hreq hcompr)]
  refine ⟨hfinal_eq, ?_⟩
  have hfinal_pos : 0 < (finance_fallback_pricing unit_cost margin discount_rate requested_price
      max_price_uplift margin_floor quantity).final_price := by
    rw [hfinal_eq]
    exact lt_of_lt_of_le hpos (le_max_left _ _)
  show (verify_final_margin margin_floor _ unit_cost).meets_floor = _
  rw [verify_final_margin]
  simp only []
  rw [if_neg (by
    push_neg
    exact hfinal_pos)]
  rfl

/-- Witness for C8 at the spec's scenario A numbers (unit cost 8.80, target
margin 0.22, volume discount 0.01, requested price 12, uplift 0.25, floor
0.15). -/
theorem finance_final_price_and_gate_witness :
    (IsTwoDec (12 : ℚ) ∧ (0 : ℚ) < 12 ∧ (0 : ℚ) ≤ 1/4) ∧
      (finance_fallback_pricing (88/10) (22/100) (1/100) 12 (1/4) (15/100) 100).final_price =
        max 12 (min (round2 (12 * (1 + 1/4)))
          (max 12 (round2 (((88/10) * (1 + 22/100)) * (1 - 1/100))))) := by
  refine ⟨⟨⟨1200, by norm_num⟩, by norm_num, by norm_num⟩, ?_⟩
  exact (finance_final_price_and_gate (88/10) (22/100) (1/100) 12 (1/4) (15/100) 100
    ⟨1200, by norm_num⟩ (by norm_num) (by norm_num)).1

/-- The result of `assess_deal_sensitivity` (agents/sales/tools.py). -/
structure SensitivityResult where
  price_uplift : ℚ
  delivery_slip_days : ℤ
  within_price_tolerance : Bool
  within_delivery_tolerance : Bool
deriving Repr, DecidableEq

/-- `assess_deal_sensitivity` from agents/sales/tools.py: relative price uplift
over the anchor and delivery slip over the anchor days, each compared with the
customer's tolerance. -/
def assess_deal_sensitivity (max_price_uplift : ℚ) (acceptable_buffer : ℤ)
    (original_price proposed_price : ℚ)
    (original_delivery_days proposed_delivery_days : ℤ) : SensitivityResult :=
  let price_uplift := if original_price ≤ 0 then 0
    else (proposed_price - original_price) / original_price
  let delivery_slip := max 0 (proposed_delivery_days - original_delivery_days)
  { price_uplift := round4 price_uplift
    delivery_slip_days := delivery_slip
    within_price_tolerance := decide (price_uplift ≤ max_price_uplift)
    within_delivery_tolerance := decide (delivery_slip ≤ acceptable_buffer) }

/-- The result of `calculate_counter_offer` (agents/sales/tools.py). -/
structure CounterOfferResult where
  counter_offer : ℚ
  customer_acceptance_likelihood : ℚ
deriving Repr, DecidableEq

/-- `calculate_counter_offer` from agents/sales/tools.py: accept the proposed
price at likelihood 0.9 when within both tolerances; otherwise moderate to
`original_price * 1.25` when price is out of tolerance, with likelihood 0.65
when delivery is within tolerance and 0.5 otherwise. -/
def calculate_counter_offer (original_price proposed_price : ℚ)
    (sensitivity : SensitivityResult) : CounterOfferResult :=
  if sensitivity.within_price_tolerance && sensitivity.within_delivery_tolerance then
    { counter_offer := round2 proposed_price, customer_acceptance_likelihood := 9/10 }
  else
    let moderated_price := if !sensitivity.within_price_tolerance
      then original_price * (125/100) else proposed_price
    { counter_offer := round2 moderated_price
      customer_acceptance_likelihood :=
        if sensitivity.within_delivery_tolerance then 65/100 else 1/2 }

/-- The sales gate verdict fields produced by `LLMSalesAgent._fallback` (the
reasoning string is not modelled). -/
structure SalesVerdict where
  can_proceed : Bool
  agreed_price : ℚ
  confidence : ℚ
deriving Repr, DecidableEq

/-- `LLMSalesAgent._fallback` from agents/sales/llm.py:
`max_acceptable = requested_price * max_price_uplift + requested_price`;
`can_proceed = proposed_price <= max_acceptable and likelihood >= 0.7`; the
agreed price is the counter offer, clamped to `max_acceptable` on rejection.
`requested_price` is the anchor price (`invoke` passes
`anchor_requested_price`). -/
def sales_fallback (requested_price proposed_price max_price_uplift : ℚ)
    (counter : CounterOfferResult) : SalesVerdict :=
  let max_acceptable := requested_price * max_price_uplift + requested_price
  let agreed_price := counter.counter_offer
  let can_proceed := decide (proposed_price ≤ max_acceptable) &&
    decide (7/10 ≤ counter.customer_acceptance_likelihood)
  { can_proceed := can_proceed
    agreed_price := if can_proceed then agreed_price else min agreed_price max_acceptable
    confidence := counter.customer_acceptance_likelihood }

/-- The deterministic sensitivity → counter-offer → fallback chain of
`LLMSalesAgent.invoke` (agents/sales/llm.py lines 57-77 and 110-120).  The
anchor price is `negotiation_context['original_requested_price']` (defaulting
to the order's requested price); `invoke` passes the order's requested delivery
days as both day arguments, so the day inputs are kept general here. -/
def sales_evaluate (anchor_price proposed_price : ℚ)
    (anchor_days proposed_days : ℤ) (max_price_uplift : ℚ) (acceptable_buffer : ℤ) :
    SalesVerdict :=
  let sensitivity := assess_deal_sensitivity max_price_uplift acceptable_buffer
    anchor_price proposed_price anchor_days proposed_days
  let counter := calculate_counter_offer anchor_price proposed_price sensitivity
  sales_fallback anchor_price proposed_price max_price_uplift counter

/-- C9 counterexample: anchor 10, proposed 13, uplift tolerance 0.20, delivery
within tolerance.  The code counters at `anchor*1.25 = 12.50` (not
`max(anchor*1.25, proposed) = 13`) and sets likelihood 0.65 even though
delivery is within tolerance (the claim reserves 0.65 for the
delivery-out-of-tolerance case). -/
theorem sales_counter_offer_not_max :
    (assess_deal_sensitivity (1/5) 2 10 13 18 18).within_price_tolerance = false ∧
    (assess_deal_sensitivity (1/5) 2 10 13 18 18).within_delivery_tolerance = true ∧
    (calculate_counter_offer 10 13 (assess_deal_sensitivity (1/5) 2 10 13 18 18)).counter_offer
      = 25/2 ∧
    (25/2 : ℚ) ≠ max (10 * (125/100)) 13 ∧
    (calculate_counter_offer 10 13
      (assess_deal_sensitivity (1/5) 2 10 13 18 18)).customer_acceptance_likelihood = 65/100 ∧
    (65/100 : ℚ) ≠ 1/2 := by
  have hs : assess_deal_sensitivity (1/5) 2 10 13 18 18 =
      { price_uplift := 3/10, delivery_slip_days := 0
        within_price_tolerance := false, within_delivery_tolerance := true } := by
    norm_num [assess_deal_sensitivity, round4, roundHalfEven]
  have hr : round2 (25/2) = 25/2 := round2_of_twoDec ⟨1250, by norm_num⟩
  refine ⟨by rw [hs], by rw [hs], ?_, by norm_num, ?_, by norm_num⟩
  · rw [hs]
    norm_num [calculate_counter_offer, hr]
  · rw [hs]
    norm_num [calculate_counter_offer]

/-- C9 (amended): within both tolerances the proposed price is accepted
(rounded to cents) at likelihood 0.9; otherwise the counter-offer is
`round(anchor * 1.25, 2)` when price is out of tolerance (the proposed price
itself when only delivery blocks), the likelihood is 0.65 when delivery is
within tolerance (price being the blocker) and 0.5 otherwise; and the gate's
`can_proceed` is true exactly when the **proposed** price is at most the
customer ceiling `anchor * (1 + max_price_uplift)` and the likelihood is at
least 0.7. -/
theorem sales_evaluate_characterization (anchor_price proposed_price : ℚ)
    (anchor_days proposed_days : ℤ) (max_price_uplift : ℚ) (acceptable_buffer : ℤ) :
    (let sensitivity := assess_deal_sensitivity max_price_uplift acceptable_buffer
        anchor_price proposed_price anchor_days proposed_days
     let counter := calculate_counter_offer anchor_price proposed_price sensitivity
     counter.counter_offer = round2 (if sensitivity.within_price_tolerance = false
        then anchor_price * (125/100) else proposed_price) ∧
      counter.customer_acceptance_likelihood =
        (if sensitivity.within_price_tolerance && sensitivity.within_delivery_tolerance
          then 9/10
          else if sensitivity.within_delivery_tolerance then 65/100 else 1/2) ∧
      (sales_evaluate anchor_price proposed_price anchor_days proposed_days
          max_price_uplift acceptable_buffer).can_proceed =
        (decide (proposed_price ≤ anchor_price * (1 + max_price_uplift)) &&
          decide (7/10 ≤ counter.customer_acceptance_likelihood)) ∧
      (sales_evaluate anchor_price proposed_price anchor_days proposed_days
          max_price_uplift acceptable_buffer).confidence =
        counter.customer_acceptance_likelihood) := by
  have hacc : anchor_price * max_price_uplift + anchor_price =
      anchor_price * (1 + max_price_uplift) := by ring
  cases hp : (assess_deal_sensitivity max_price_uplift acceptable_buffer
      anchor_price proposed_price anchor_days proposed_days).within_price_tolerance <;>
    cases hd : (assess_deal_sensitivity max_price_uplift acceptable_buffer
        anchor_price proposed_price anchor_days proposed_days).within_delivery_tolerance <;>
      simp only [sales_evaluate, sales_fallback, calculate_counter_offer, hp, hd, hacc,
        Bool.false_and, Bool.true_and, Bool.and_false, Bool.and_true, Bool.not_false,
        Bool.not_true, if_true, if_false, Bool.false_eq_true, if_pos, ite_true, ite_false] <;>
      norm_num

/-- One entry of a live procurement result's `material_availability` dict as
`_procurement_feasible_quantity` reads it (`none` models a missing or
non-numeric entry, handled by `safe_float`). -/
structure AvailabilityEntry where
  required : Option ℚ
  available : Option ℚ
deriving Repr, DecidableEq

/-- `_procurement_feasible_quantity` from services.py: for each material with a
positive requirement, `int(available * requested_quantity / required)`; the
minimum over materials, clamped into [0, requested_quantity]; the requested
quantity itself when no material has a positive requirement. -/
def procurement_feasible_quantity (order_quantity : Option ℤ)
    (material_availability : List AvailabilityEntry) : ℤ :=
  let requested_quantity := max 1 (safe_int order_quantity 1)
  let feasible_quantities := material_availability.filterMap fun item =>
    let required := safe_float item.required 0
    let available := safe_float item.available 0
    if required ≤ 0 then none
    else some (pytrunc ((available * (requested_quantity : ℚ)) / required))
  match feasible_quantities.min? with
  | none => requested_quantity
  | some m => max 0 (min requested_quantity m)

/-- The previous-round order dict fields read by `derive_revised_order`
(services.py).  `none` models a missing or unparsable entry. -/
structure PrevOrder where
  quantity : Option ℤ
  requestedPrice : Option ℚ
  requestedDeliveryDays : Option ℤ
  ctx_original_requested_price : Option ℚ
  ctx_original_requested_delivery_days : Option ℤ
  ctx_original_quantity : Option ℤ
deriving Repr, DecidableEq

/-- `original_price` in `derive_revised_order`: the round-1 anchor price from
the negotiation context, defaulting to the previous order's requested price. -/
def prevOriginalPrice (prev : PrevOrder) : ℚ :=
  safe_float prev.ctx_original_requested_price (safe_float prev.requestedPrice 10)

/-- `original_days` in `derive_revised_order`. -/
def prevOriginalDays (prev : PrevOrder) : ℤ :=
  safe_int prev.ctx_original_requested_delivery_days (safe_int prev.requestedDeliveryDays 18)

/-- `original_quantity` in `derive_revised_order`. -/
def prevOriginalQuantity (prev : PrevOrder) : ℤ :=
  safe_int prev.ctx_original_quantity (safe_int prev.quantity 1)

/-- `requested_price` in `derive_revised_order`. -/
def prevRequestedPrice (prev : PrevOrder) : ℚ :=
  safe_float prev.requestedPrice (prevOriginalPrice prev)

/-- `requested_days` in `derive_revised_order`. -/
def prevRequestedDays (prev : PrevOrder) : ℤ :=
  safe_int prev.requestedDeliveryDays (prevOriginalDays prev)

/-- `requested_quantity` in `derive_revised_order`. -/
def prevRequestedQuantity (prev : PrevOrder) : ℤ :=
  safe_int prev.quantity (prevOriginalQuantity prev)

/-- The fields of a `process_order` response that `derive_revised_order` reads.
`can_proceed a` is the gate verdict of agent `a` (`false` when the agent's
response is absent, matching `get_blocking_agents`); the logistics delivery
days are the already-parsed result of `extract_delivery_days_from_process_response`
(date parsing against the current clock is abstracted into this input). -/
structure ProcessView where
  can_proceed : AgentId → Bool
  procurement_material_availability : List AvailabilityEntry
  production_days : Option ℤ
  logistics_delivery_days : Option ℤ
  finance_final_price : Option ℚ

/-- `get_blocking_agents` from services.py: the agents, in `AGENT_IDS` order,
whose verdict is not `can_proceed`. -/
def get_blocking_agents (resp : ProcessView) : List AgentId :=
  AGENT_IDS.filter fun a => !resp.can_proceed a

/-- The sequential `target_price` updates of `derive_revised_order`
(services.py lines 757-807), split by round.  Round 2: the
production/logistics premium, the finance floor recovery, then the sales cap;
final round: the unconditional premium, then the sales cap. -/
def negotiationTargetPrice (round_number : ℤ)
    (requested_price finance_floor original_price max_customer_price : ℚ)
    (prodOrLogBlocked financeBlocked salesBlocked : Bool) : ℚ :=
  if round_number = 2 then
    let p := requested_price
    let p := if prodOrLogBlocked then
      max p (max (finance_floor * (105/100)) (original_price * (108/100))) else p
    let p := if financeBlocked then
      max p (max finance_floor (original_price * (105/100))) else p
    let p := if salesBlocked then min (max p finance_floor) max_customer_price else p
    p
  else
    let p := max requested_price (max (finance_floor * (108/100)) (original_price * (110/100)))
    let p := if salesBlocked then min p max_customer_price else p
    p

/-- The sequential `target_days` updates of `derive_revised_order`, split by
round. -/
def negotiationTargetDays (round_number requested_days production_days logistics_days
    original_days delivery_buffer primary_lead_with_buffer : ℤ)
    (procurementBlocked prodOrLogBlocked productionBlocked salesBlocked : Bool) : ℤ :=
  let d := max requested_days (max production_days logistics_days)
  if round_number = 2 then
    let d := if procurementBlocked then max d primary_lead_with_buffer else d
    let d := if prodOrLogBlocked then
      max original_days (min d (max production_days logistics_days)) else d
    let d := if salesBlocked then max d (original_days + delivery_buffer) else d
    d
  else
    let d := max d (max (original_days + max 3 (delivery_buffer + 1)) (production_days + 2))
    let d := if productionBlocked then max d (production_days + 3) else d
    let d := if salesBlocked then max d (original_days + delivery_buffer + 1) else d
    d

/-- The `target_quantity` update of `derive_revised_order`: only the final
round with procurement blocking and a positive feasible quantity reduces the
quantity, to `min(requested_quantity, feasible_quantity)`. -/
def negotiationTargetQuantity (round_number requested_quantity feasible_quantity : ℤ)
    (procurementBlocked : Bool) : ℤ :=
  if round_number = 2 then requested_quantity
  else if procurementBlocked && decide (0 < feasible_quantity) then
    min requested_quantity feasible_quantity
  else requested_quantity

/-- The revised-order fields produced by `derive_revised_order` that the claims
constrain (priority, strategy tags and narrative context fields are not
modelled). -/
structure RevisedOrder where
  quantity : ℤ
  requestedPrice : ℚ
  requestedDeliveryDays : ℤ
deriving Repr, DecidableEq

/-- `derive_revised_order` from services.py (lines 712-829), called by the
orchestrate loop with `round_number` 2 or 3 (any value other than 2 takes the
source's final-round `else` branch).  The customer profile values
(`max_price_uplift`, `acceptable_delivery_buffer_days`) and the procurement
policy's `primary_lead_time_days` are explicit inputs (the source reads them
from the inventory manager with defaults 0.20, 2 and 10). -/
def derive_revised_order (prev : PrevOrder) (resp : ProcessView) (round_number : ℤ)
    (max_price_uplift : ℚ) (delivery_buffer primary_lead_time_days : ℤ) : RevisedOrder :=
  let original_price := prevOriginalPrice prev
  let original_days := prevOriginalDays prev
  let blockers := get_blocking_agents resp
  let production_days := safe_int resp.production_days
    (safe_int prev.requestedDeliveryDays original_days)
  let logistics_days :=
    match resp.logistics_delivery_days with
    | some d => d
    | none => max 1 (production_days + 2)
  let finance_floor := safe_float resp.finance_final_price
    (safe_float prev.requestedPrice original_price)
  let requested_price := prevRequestedPrice prev
  let requested_days := prevRequestedDays prev
  let requested_quantity := prevRequestedQuantity prev
  let feasible_quantity := max 0 (procurement_feasible_quantity prev.quantity
    resp.procurement_material_availability)
  let max_customer_price := round2 (original_price * (1 + max_price_uplift))
  let primary_lead_with_buffer := primary_lead_time_days + 2
  let prodOrLog := decide (AgentId.production ∈ blockers) || decide (AgentId.logistics ∈ blockers)
  { quantity := max 1 (negotiationTargetQuantity round_number requested_quantity
      feasible_quantity (decide (AgentId.procurement ∈ blockers)))
    requestedPrice := round2 (negotiationTargetPrice round_number requested_price finance_floor
      original_price max_customer_price prodOrLog
      (decide (AgentId.finance ∈ blockers)) (decide (AgentId.sales ∈ blockers)))
    requestedDeliveryDays := negotiationTargetDays round_number requested_days production_days
      logistics_days original_days delivery_buffer primary_lead_with_buffer
      (decide (AgentId.procurement ∈ blockers)) prodOrLog
      (decide (AgentId.production ∈ blockers)) (decide (AgentId.sales ∈ blockers)) }

theorem anchor_le_negotiationTargetPrice (round_number : ℤ)
    {requested_price finance_floor original_price max_customer_price : ℚ}
    (prodOrLogBlocked financeBlocked salesBlocked : Bool)
    (hreq : original_price ≤ requested_price)
    (hmcp : original_price ≤ max_customer_price) :
    original_price ≤ negotiationTargetPrice round_number requested_price finance_floor
      original_price max_customer_price prodOrLogBlocked financeBlocked salesBlocked := by
  simp only [negotiationTargetPrice]
  split_ifs
  all_goals try simp only [le_max_iff, le_min_iff]
  all_goals tauto

theorem negotiationTargetQuantity_bounds (round_number : ℤ) (rq fq : ℤ)
    (procurementBlocked : Bool) (h4 : 1 ≤ rq) :
    max 1 (negotiationTargetQuantity round_number rq fq procurementBlocked) ≤ rq ∧
      1 ≤ max 1 (negotiationTargetQuantity round_number rq fq procurementBlocked) ∧
      min rq (max 1 fq) ≤ max 1 (negotiationTargetQuantity round_number rq fq procurementBlocked) := by
  simp only [negotiationTargetQuantity]
  split_ifs with hr hp
  · omega
  · simp only [Bool.and_eq_true, decide_eq_true_eq] at hp
    omega
  · omega

/-- C4 (amended): whenever the previous round's order is consistent with its
anchors (requested price at least the anchor price, which is a nonnegative
cent value; requested quantity between 1 and the original quantity) and the
customer uplift is nonnegative, the revised order never prices below the
anchor, never exceeds the original quantity, stays at least 1, and any
quantity reduction is capped at the immediately fulfillable quantity
`min(requested, feasible)`. -/
theorem revised_order_invariants (prev : PrevOrder) (resp : ProcessView) (round_number : ℤ)
    (max_price_uplift : ℚ) (delivery_buffer primary_lead_time_days : ℤ)
    (h0 : 0 ≤ prevOriginalPrice prev)
    (h1 : prevOriginalPrice prev ≤ prevRequestedPrice prev)
    (h2 : IsTwoDec (prevOriginalPrice prev))
    (h3 : 0 ≤ max_price_uplift)
    (h4 : 1 ≤ prevRequestedQuantity prev)
    (h5 : prevRequestedQuantity prev ≤ prevOriginalQuantity prev) :
    prevOriginalPrice prev ≤ (derive_revised_order prev resp round_number max_price_uplift
      delivery_buffer primary_lead_time_days).requestedPrice ∧
    (derive_revised_order prev resp round_number max_price_uplift
      delivery_buffer primary_lead_time_days).quantity ≤ prevOriginalQuantity prev ∧
    1 ≤ (derive_revised_order prev resp round_number max_price_uplift
      delivery_buffer primary_lead_time_days).quantity ∧
    min (prevRequestedQuantity prev)
      (max 1 (max 0 (procurement_feasible_quantity prev.quantity
        resp.procurement_material_availability))) ≤
      (derive_revised_order prev resp round_number max_price_uplift
        delivery_buffer primary_lead_time_days).quantity := by
  have hmcp : prevOriginalPrice prev ≤
      round2 (prevOriginalPrice prev * (1 + max_price_uplift)) := by
    apply le_round2_of_le h2
    nlinarith
  have hq := negotiationTargetQuantity_bounds round_number (prevRequestedQuantity prev)
    (max 0 (procurement_feasible_quantity prev.quantity
      resp.procurement_material_availability))
    (decide (AgentId.procurement ∈ get_blocking_agents resp)) h4
  refine ⟨?_, ?_, ?_, ?_⟩
  · exact le_round2_of_le h2 (anchor_le_negotiationTargetPrice round_number _ _ _ h1 hmcp)
  · exact le_trans hq.1 h5
  · exact hq.2.1
  · exact hq.2.2

/-- The previous-round order used to refute C4 as stated: the caller-supplied
negotiation context carries an anchor price (50) above the order's requested
price (10), which the API accepts. -/
def highAnchorPrev : PrevOrder :=
  { quantity := some 100
    requestedPrice := some 10
    requestedDeliveryDays := some 18
    ctx_original_requested_price := some 50
    ctx_original_requested_delivery_days := some 18
    ctx_original_quantity := some 100 }

/-- A process response in which only the sales gate blocked. -/
def salesBlockedView : ProcessView :=
  { can_proceed := fun a => match a with
      | AgentId.sales => false
      | _ => true
    procurement_material_availability := []
    production_days := none
    logistics_delivery_days := none
    finance_final_price := none }

/-- C4 counterexample: with an anchor price of 50 above the previous requested
price of 10 and sales as the only blocker, round 2 revises the price to 10 —
below the round-1 anchor price, refuting the claim for arbitrary
previous-round orders. -/
theorem revised_price_below_anchor :
    prevOriginalPrice highAnchorPrev = 50 ∧
      (derive_revised_order highAnchorPrev salesBlockedView 2 (1/5) 2 10).requestedPrice = 10 ∧
      (10 : ℚ) < 50 := by
  have hblock : get_blocking_agents salesBlockedView = [AgentId.sales] := by
    simp [get_blocking_agents, AGENT_IDS, salesBlockedView, List.filter]
  have hr10 : round2 10 = 10 := round2_of_twoDec ⟨1000, by norm_num⟩
  have hr60 : round2 60 = 60 := round2_of_twoDec ⟨6000, by norm_num⟩
  refine ⟨by norm_num [prevOriginalPrice, highAnchorPrev, safe_float], ?_, by norm_num⟩
  simp only [derive_revised_order, hblock]
  norm_num [negotiationTargetPrice, highAnchorPrev, salesBlockedView, prevRequestedPrice,
    prevOriginalPrice, safe_float, safe_int, hr10, hr60, List.mem_singleton,
    (by decide : AgentId.finance ≠ AgentId.sales),
    (by decide : AgentId.production ≠ AgentId.sales),
    (by decide : AgentId.logistics ≠ AgentId.sales)]

/-- A previous-round order consistent with its anchors (requested price 12 at
the anchor, quantity 100 at the original). -/
def consistentPrev : PrevOrder :=
  { quantity := some 100
    requestedPrice := some 12
    requestedDeliveryDays := some 18
    ctx_original_requested_price := some 12
    ctx_original_requested_delivery_days := some 18
    ctx_original_quantity := some 100 }

/-- Witness for the amended C4 theorem at a consistent round-3 revision with
sales blocking. -/
theorem revised_order_invariants_witness :
    ((0 : ℚ) ≤ prevOriginalPrice consistentPrev ∧
      prevOriginalPrice consistentPrev ≤ prevRequestedPrice consistentPrev ∧
      IsTwoDec (prevOriginalPrice consistentPrev) ∧
      (0 : ℚ) ≤ 1/5 ∧
      1 ≤ prevRequestedQuantity consistentPrev ∧
      prevRequestedQuantity consistentPrev ≤ prevOriginalQuantity consistentPrev) ∧
    prevOriginalPrice consistentPrev ≤
      (derive_revised_order consistentPrev salesBlockedView 3 (1/5) 2 10).requestedPrice ∧
    (derive_revised_order consistentPrev salesBlockedView 3 (1/5) 2 10).quantity ≤
      prevOriginalQuantity consistentPrev ∧
    1 ≤ (derive_revised_order consistentPrev salesBlockedView 3 (1/5) 2 10).quantity := by
  have h0 : (0 : ℚ) ≤ prevOriginalPrice consistentPrev := by
    norm_num [prevOriginalPrice, consistentPrev, safe_float]
  have h1 : prevOriginalPrice consistentPrev ≤ prevRequestedPrice consistentPrev := by
    norm_num [prevOriginalPrice, prevRequestedPrice, consistentPrev, safe_float]
  have h2 : IsTwoDec (prevOriginalPrice consistentPrev) := by
    refine ⟨1200, ?_⟩
    norm_num [prevOriginalPrice, consistentPrev, safe_float]
  have h4 : 1 ≤ prevRequestedQuantity consistentPrev := by
    norm_num [prevRequestedQuantity, consistentPrev, safe_int]
  have h5 : prevRequestedQuantity consistentPrev ≤ prevOriginalQuantity consistentPrev := by
    norm_num [prevRequestedQuantity, prevOriginalQuantity, consistentPrev, safe_int]
  have h := revised_order_invariants consistentPrev salesBlockedView 3 (1/5) 2 10
    h0 h1 h2 (by norm_num) h4 h5
  exact ⟨⟨h0, h1, h2, by norm_num, h4, h5⟩, h.1, h.2.1, h.2.2.1⟩

end Spec2Proof
